import Mathlib

/-!
Verification of the CI/CD pipeline script (src/cicd-pipeline.js) against its
specification. The script is embedded shallowly: every call into an external
collaborator (version control, test command, container engine, registry,
cluster API) is recorded as an event in a trace, and the outcome of each
external call is supplied by a `World` record, so a run of the script is a
pure function from (environment variables, world, CLI argument) to
(event trace, process exit code).
-/

namespace CicdPipeline

/-- The environment variables the script reads at startup (lines 18-22).
none models an unset variable. -/
structure PEnv where
  dockerRegistry : Option String
  dockerUsername : Option String
  dockerPassword : Option String
  k8sNamespace : Option String
deriving DecidableEq, Repr

/-- const DOCKER_REGISTRY = process.env.DOCKER_REGISTRY || "your-registry.com" (line 18). -/
def DOCKER_REGISTRY (e : PEnv) : String := e.dockerRegistry.getD "your-registry.com"

/-- const IMAGE_NAME = "legal-app" (line 21). -/
def IMAGE_NAME : String := "legal-app"

/-- const K8S_NAMESPACE = process.env.K8S_NAMESPACE || "default" (line 22). -/
def K8S_NAMESPACE (e : PEnv) : String := e.k8sNamespace.getD "default"

/-- const K8S_DEPLOYMENT_NAME = "legal-app-deployment" (line 23). -/
def K8S_DEPLOYMENT_NAME : String := "legal-app-deployment"

/-- Outcomes of the external collaborators for one run of the process.
mainBranchQ is the result of git.branch() in main (line 115); buildBranchQ
and buildLogQ are the results of the separate git.branch() and git.log()
calls inside buildDockerImage (lines 42-43); none models a rejected query
(not a repository, VCS tool unavailable). The four booleans are the
success of the test command, the image build, the registry push and the
cluster create call. -/
structure World where
  mainBranchQ : Option String
  buildBranchQ : Option String
  buildLogQ : Option String
  testOk : Bool
  buildOk : Bool
  pushOk : Bool
  k8sCreateOk : Bool
deriving DecidableEq, Repr

/-- The authconfig record passed to image.push (lines 61-65); username and
password are the raw environment values, possibly unset. -/
structure AuthConfig where
  username : Option String
  password : Option String
  serveraddress : String
deriving DecidableEq, Repr

/-- One container of the pod template (lines 89-97). -/
structure KContainer where
  name : String
  image : String
  ports : List Nat
  env : List (String × String)
deriving DecidableEq, Repr

/-- The deployment descriptor built by deployToK8s (lines 79-101). -/
structure KDeployment where
  apiVersion : String
  kind : String
  name : String
  ns : String
  replicas : Nat
  matchLabels : List (String × String)
  podLabels : List (String × String)
  containers : List KContainer
deriving DecidableEq, Repr

/-- Observable actions of the script: console output and every call to an
external collaborator. k8sRead and k8sPatch are the cluster calls the
script never makes; they are in the alphabet so that their absence from
every trace is a statable fact. -/
inductive Event where
  | log (msg : String)
  | logErr (msg : String)
  | runTestCmd
  | dockerBuild (image : String)
  | dockerPush (image : String) (auth : AuthConfig)
  | k8sRead (ns : String) (name : String)
  | k8sPatch (ns : String) (name : String)
  | k8sCreate (ns : String) (d : KDeployment)
deriving DecidableEq, Repr

/-- How a modelled async function ends: a resolved value, a call to
process.exit(code), or an uncaught promise rejection. -/
inductive Outcome (α : Type) where
  | ok (a : α)
  | exited (code : Nat)
  | rejected (msg : String)
deriving DecidableEq, Repr

/-- A run of one modelled function: the events it emits, then its outcome. -/
abbrev Run (α : Type) := List Event × Outcome α

/-- Sequencing of awaited calls: the next stage starts only when the
previous one resolved; process.exit and rejections short-circuit. -/
def andThen {α β : Type} (x : Run α) (f : α → Run β) : Run β :=
  match x with
  | (tr, Outcome.ok a) => (tr ++ (f a).1, (f a).2)
  | (tr, Outcome.exited c) => (tr, Outcome.exited c)
  | (tr, Outcome.rejected m) => (tr, Outcome.rejected m)

/-- runUnitTests (lines 26-36): log, run the test command; on non-zero
exit status of the command, log the failure and process.exit(1). -/
def runUnitTests (w : World) : Run Unit :=
  if w.testOk then
    ([Event.log "Running Rails unit tests...", Event.runTestCmd,
      Event.log "✅ Unit tests passed."], Outcome.ok ())
  else
    ([Event.log "Running Rails unit tests...", Event.runTestCmd,
      Event.logErr "❌ Unit tests failed:"], Outcome.exited 1)

/-- The tag and full image name computed on lines 44-45:
tag = branch === "production" ? prod-commit : dev-commit;
fullImageName = DOCKER_REGISTRY/IMAGE_NAME:tag. -/
def fullImageNameOf (e : PEnv) (branch commit : String) : String :=
  DOCKER_REGISTRY e ++ "/" ++ IMAGE_NAME ++ ":" ++
    (if branch = "production" then "prod-" ++ commit else "dev-" ++ commit)

/-- The authconfig literal of lines 61-65. -/
def authOf (e : PEnv) : AuthConfig :=
  { username := e.dockerUsername, password := e.dockerPassword,
    serveraddress := DOCKER_REGISTRY e }

/-- buildDockerImage (lines 39-73): log, query branch and latest commit
with its own simple-git instance (lines 41-43, outside the try block, so
a failing query is an uncaught rejection), derive the tag (lines 44-45),
then inside the try: build, push with the env credentials, log and return
the full image name; any build or push error logs and process.exit(1). -/
def buildDockerImage (e : PEnv) (w : World) : Run String :=
  match w.buildBranchQ with
  | none => ([Event.log "Building Docker image..."], Outcome.rejected "VcsUnavailable")
  | some branch =>
    match w.buildLogQ with
    | none => ([Event.log "Building Docker image..."], Outcome.rejected "VcsUnavailable")
    | some commit =>
      let fullImageName := fullImageNameOf e branch commit
      if w.buildOk then
        if w.pushOk then
          ([Event.log "Building Docker image...",
            Event.dockerBuild fullImageName,
            Event.log "Pushing Docker image...",
            Event.dockerPush fullImageName (authOf e),
            Event.log ("✅ Docker image pushed: " ++ fullImageName)],
           Outcome.ok fullImageName)
        else
          ([Event.log "Building Docker image...",
            Event.dockerBuild fullImageName,
            Event.log "Pushing Docker image...",
            Event.dockerPush fullImageName (authOf e),
            Event.logErr "❌ Docker build/push failed:"],
           Outcome.exited 1)
      else
        ([Event.log "Building Docker image...",
          Event.dockerBuild fullImageName,
          Event.logErr "❌ Docker build/push failed:"],
         Outcome.exited 1)

/-- The deployment descriptor literal of lines 79-101. -/
def mkDeployment (e : PEnv) (imageName : String) : KDeployment :=
  { apiVersion := "apps/v1", kind := "Deployment",
    name := K8S_DEPLOYMENT_NAME, ns := K8S_NAMESPACE e,
    replicas := 3,
    matchLabels := [("app", "legal-app")],
    podLabels := [("app", "legal-app")],
    containers := [{ name := "legal-app", image := imageName,
                     ports := [3000],
                     env := [("RAILS_ENV", "production")] }] }

/-- deployToK8s (lines 76-110): log, build the descriptor, submit a single
createNamespacedDeployment call (line 104); on API error log and
process.exit(1). -/
def deployToK8s (e : PEnv) (w : World) (imageName : String) : Run Unit :=
  if w.k8sCreateOk then
    ([Event.log "Deploying to Kubernetes...",
      Event.k8sCreate (K8S_NAMESPACE e) (mkDeployment e imageName),
      Event.log "✅ Deployment created/updated in K8s."], Outcome.ok ())
  else
    ([Event.log "Deploying to Kubernetes...",
      Event.k8sCreate (K8S_NAMESPACE e) (mkDeployment e imageName),
      Event.logErr "❌ K8s deployment failed:"], Outcome.exited 1)

/-- main (lines 113-128): query the current branch, then dispatch on the
action: test runs the tests; deploy on branch production runs tests, then
build, then deploy, each awaited; anything else logs a skip message and
resolves. A failing branch query rejects the returned promise. -/
def mainFn (e : PEnv) (w : World) (action : String) : Run Unit :=
  match w.mainBranchQ with
  | none => ([], Outcome.rejected "VcsUnavailable")
  | some branch =>
    if action = "test" then
      runUnitTests w
    else if action = "deploy" ∧ branch = "production" then
      andThen (runUnitTests w) (fun _ =>
        andThen (buildDockerImage e w) (fun imageName =>
          deployToK8s e w imageName))
    else
      ([Event.log "Invalid action or not on production branch. Skipping deployment."],
       Outcome.ok ())

/-- The CLI entry point (lines 131-136): a missing action argument prints
usage and exits 1; otherwise main(action) runs, with .catch(console.error)
on its promise, so a resolved run exits 0, a process.exit inside a stage
gives that code, and an uncaught rejection is printed by the catch handler
and the process then exits 0. Returns (trace, exit code). -/
def runPipeline (e : PEnv) (w : World) (argv2 : Option String) : List Event × Nat :=
  match argv2 with
  | none => ([Event.log "Usage: node cicd-pipeline.js <test|deploy>"], 1)
  | some action =>
    match mainFn e w action with
    | (tr, Outcome.ok _) => (tr, 0)
    | (tr, Outcome.exited c) => (tr, c)
    | (tr, Outcome.rejected m) => (tr ++ [Event.logErr m], 0)

/-- The events that are side effects on an external collaborator (a test
run, a container-engine call, a registry push, a cluster API call), as
opposed to console output. -/
def isSideEffect : Event → Bool
  | Event.runTestCmd => true
  | Event.dockerBuild _ => true
  | Event.dockerPush _ _ => true
  | Event.k8sRead _ _ => true
  | Event.k8sPatch _ _ => true
  | Event.k8sCreate _ _ => true
  | _ => false

/-- The side-effecting events of a trace, in order. -/
def sideEffects (tr : List Event) : List Event := tr.filter isSideEffect

/-- Claim C7: when the CLI action argument is absent, the program prints the
usage message and terminates with exit code 1, and no stage (VCS query,
tests, build, push, deploy) is invoked. -/
theorem C7_missing_action_usage_exit1 (e : PEnv) (w : World) :
    runPipeline e w none = ([Event.log "Usage: node cicd-pipeline.js <test|deploy>"], 1) ∧
    sideEffects (runPipeline e w none).1 = [] := by
  exact ⟨rfl, rfl⟩

/-- Claim C6: on every deploy, the Deployment Applier submits exactly one
unconditional create request (no existence query, no update or patch), and
the descriptor it submits has replica count 3, one container with port
3000, selector and pod label app: legal-app, environment list containing
RAILS_ENV=production, the given image reference, and namespace taken from
K8S_NAMESPACE defaulting to default. -/
theorem C6_descriptor_and_unconditional_create (e : PEnv) (w : World) (img : String) :
    sideEffects (deployToK8s e w img).1 =
      [Event.k8sCreate (K8S_NAMESPACE e) (mkDeployment e img)] ∧
    (∀ ns nm, Event.k8sRead ns nm ∉ (deployToK8s e w img).1) ∧
    (∀ ns nm, Event.k8sPatch ns nm ∉ (deployToK8s e w img).1) ∧
    mkDeployment e img =
      { apiVersion := "apps/v1", kind := "Deployment",
        name := "legal-app-deployment", ns := e.k8sNamespace.getD "default",
        replicas := 3,
        matchLabels := [("app", "legal-app")],
        podLabels := [("app", "legal-app")],
        containers := [{ name := "legal-app", image := img,
                         ports := [3000],
                         env := [("RAILS_ENV", "production")] }] } := by
  cases hk : w.k8sCreateOk <;>
    simp [deployToK8s, sideEffects, isSideEffect, hk, mkDeployment,
      K8S_NAMESPACE, K8S_DEPLOYMENT_NAME]

/-- Claim C3: for any branch other than production, action deploy, and for
any branch, an action that is neither test nor deploy, the run performs no
side-effecting stage, logs the informational skip message, and exits 0. -/
theorem C3_skip_path_no_side_effects (e : PEnv) (w : World) (b a : String)
    (h1 : w.mainBranchQ = some b)
    (ha : a ≠ "test") (had : a = "deploy" → b ≠ "production") :
    runPipeline e w (some a) =
      ([Event.log "Invalid action or not on production branch. Skipping deployment."], 0) ∧
    sideEffects (runPipeline e w (some a)).1 = [] := by
  have hcond : ¬(a = "deploy" ∧ b = "production") := fun h => had h.1 h.2
  simp [runPipeline, mainFn, h1, ha, hcond, sideEffects, isSideEffect]

/-- Witness for C3 at branch main, action deploy. -/
theorem C3_skip_path_no_side_effects_witness :
    runPipeline ⟨none, none, none, none⟩
        ⟨some "main", none, none, true, true, true, true⟩ (some "deploy") =
      ([Event.log "Invalid action or not on production branch. Skipping deployment."], 0) :=
  (C3_skip_path_no_side_effects ⟨none, none, none, none⟩
      ⟨some "main", none, none, true, true, true, true⟩ "main" "deploy"
      rfl (by decide) (fun _ => by decide)).1

/-- Claim C4: whenever the test command fails, both under action test and
on the deploy/production path, the process exits with code 1 and the only
side effect performed is the test run itself: the Image Builder and the
Deployment Applier are never invoked. -/
theorem C4_test_failure_fail_fast (e : PEnv) (w : World) (b : String)
    (h1 : w.mainBranchQ = some b) (hT : w.testOk = false) :
    (runPipeline e w (some "test")).2 = 1 ∧
    sideEffects (runPipeline e w (some "test")).1 = [Event.runTestCmd] ∧
    (b = "production" →
      (runPipeline e w (some "deploy")).2 = 1 ∧
      sideEffects (runPipeline e w (some "deploy")).1 = [Event.runTestCmd]) := by
  refine ⟨?_, ?_, fun hb => ?_⟩ <;> subst_eqs <;>
    simp [runPipeline, mainFn, runUnitTests, andThen, h1, hT, sideEffects, isSideEffect]

/-- Witness for C4 at branch production with a failing test command. -/
theorem C4_test_failure_fail_fast_witness :
    (runPipeline ⟨none, none, none, none⟩
        ⟨some "production", some "production", some "abc123", false, true, true, true⟩
        (some "test")).2 = 1 :=
  (C4_test_failure_fail_fast ⟨none, none, none, none⟩
      ⟨some "production", some "production", some "abc123", false, true, true, true⟩
      "production" rfl rfl).1

/-- Claim C1: for action deploy on branch production, the run performs the
test stage, then the image build, then the registry push, then the cluster
create, in that strict order; the failure of any stage stops the run there
with exit code 1, so no later stage is invoked, and the run exits 0 exactly
when all stages succeed. Stated for a run whose VCS queries succeed. -/
theorem C1_deploy_production_sequencing (e : PEnv) (w : World) (b2 c : String)
    (h1 : w.mainBranchQ = some "production")
    (h2 : w.buildBranchQ = some b2) (h3 : w.buildLogQ = some c) :
    ((runPipeline e w (some "deploy")).2 = 0 ↔
       (w.testOk && w.buildOk && w.pushOk && w.k8sCreateOk) = true) ∧
    (w.testOk = false →
      sideEffects (runPipeline e w (some "deploy")).1 = [Event.runTestCmd] ∧
      (runPipeline e w (some "deploy")).2 = 1) ∧
    (w.testOk = true → w.buildOk = false →
      sideEffects (runPipeline e w (some "deploy")).1 =
        [Event.runTestCmd, Event.dockerBuild (fullImageNameOf e b2 c)] ∧
      (runPipeline e w (some "deploy")).2 = 1) ∧
    (w.testOk = true → w.buildOk = true → w.pushOk = false →
      sideEffects (runPipeline e w (some "deploy")).1 =
        [Event.runTestCmd, Event.dockerBuild (fullImageNameOf e b2 c),
         Event.dockerPush (fullImageNameOf e b2 c) (authOf e)] ∧
      (runPipeline e w (some "deploy")).2 = 1) ∧
    (w.testOk = true → w.buildOk = true → w.pushOk = true → w.k8sCreateOk = false →
      sideEffects (runPipeline e w (some "deploy")).1 =
        [Event.runTestCmd, Event.dockerBuild (fullImageNameOf e b2 c),
         Event.dockerPush (fullImageNameOf e b2 c) (authOf e),
         Event.k8sCreate (K8S_NAMESPACE e) (mkDeployment e (fullImageNameOf e b2 c))] ∧
      (runPipeline e w (some "deploy")).2 = 1) ∧
    (w.testOk = true → w.buildOk = true → w.pushOk = true → w.k8sCreateOk = true →
      sideEffects (runPipeline e w (some "deploy")).1 =
        [Event.runTestCmd, Event.dockerBuild (fullImageNameOf e b2 c),
         Event.dockerPush (fullImageNameOf e b2 c) (authOf e),
         Event.k8sCreate (K8S_NAMESPACE e) (mkDeployment e (fullImageNameOf e b2 c))] ∧
      (runPipeline e w (some "deploy")).2 = 0) := by
  cases ht : w.testOk <;> cases hb : w.buildOk <;> cases hp : w.pushOk <;>
    cases hk : w.k8sCreateOk <;>
      simp [runPipeline, mainFn, runUnitTests, buildDockerImage, deployToK8s, andThen,
        h1, h2, h3, ht, hb, hp, hk, sideEffects, isSideEffect]

/-- Witness for C1: a fully successful deploy run on branch production
exits 0. -/
theorem C1_deploy_production_sequencing_witness :
    (runPipeline ⟨none, none, none, none⟩
        ⟨some "production", some "production", some "abc123", true, true, true, true⟩
        (some "deploy")).2 = 0 :=
  (C1_deploy_production_sequencing ⟨none, none, none, none⟩
      ⟨some "production", some "production", some "abc123", true, true, true, true⟩
      "production" "abc123" rfl rfl rfl).1.mpr (by decide)

/-- Claim C2: for every branch and commit returned by the version-control
query inside the builder, the image tag is prod-commit when the branch is
production and dev-commit otherwise, and the full image reference is
registry/image-name:tag; on a successful build and push the builder
returns exactly that reference, and on a deploy run on branch production
the build is invoked with the prod-commit tag, where commit is the value
the version-control query returned for that run. -/
theorem C2_tag_derivation (e : PEnv) (w : World) (b c : String)
    (h2 : w.buildBranchQ = some b) (h3 : w.buildLogQ = some c) :
    (Event.dockerBuild (DOCKER_REGISTRY e ++ "/" ++ IMAGE_NAME ++ ":" ++
        (if b = "production" then "prod-" ++ c else "dev-" ++ c))
      ∈ (buildDockerImage e w).1) ∧
    (w.buildOk = true → w.pushOk = true →
      (buildDockerImage e w).2 = Outcome.ok (DOCKER_REGISTRY e ++ "/" ++ IMAGE_NAME ++ ":" ++
        (if b = "production" then "prod-" ++ c else "dev-" ++ c))) ∧
    (b = "production" → w.mainBranchQ = some "production" → w.testOk = true →
      Event.dockerBuild (DOCKER_REGISTRY e ++ "/" ++ IMAGE_NAME ++ ":" ++ ("prod-" ++ c))
        ∈ (runPipeline e w (some "deploy")).1) := by
  refine ⟨?_, fun hb hp => ?_, fun hbp h1 ht => ?_⟩
  · cases hb : w.buildOk <;> cases hp : w.pushOk <;>
      simp [buildDockerImage, h2, h3, hb, hp, fullImageNameOf]
  · simp [buildDockerImage, h2, h3, hb, hp, fullImageNameOf]
  · subst hbp
    cases hb : w.buildOk <;> cases hp : w.pushOk <;> cases hk : w.k8sCreateOk <;>
      simp [runPipeline, mainFn, runUnitTests, buildDockerImage, deployToK8s, andThen,
        h1, h2, h3, ht, hb, hp, hk, fullImageNameOf]

/-- Witness for C2 at branch production, commit abc123. -/
theorem C2_tag_derivation_witness :
    (buildDockerImage ⟨none, none, none, none⟩
        ⟨some "production", some "production", some "abc123", true, true, true, true⟩).2 =
      Outcome.ok ("your-registry.com" ++ "/" ++ "legal-app" ++ ":" ++
        (if "production" = "production" then "prod-" ++ "abc123" else "dev-" ++ "abc123")) :=
  ((C2_tag_derivation ⟨none, none, none, none⟩
      ⟨some "production", some "production", some "abc123", true, true, true, true⟩
      "production" "abc123" rfl rfl).2.1 rfl rfl).trans (by simp [DOCKER_REGISTRY, IMAGE_NAME])

/-- Claim C5 evidence: a failed VCS branch query on a deploy run is
printed by the top-level catch handler, but the process then exits with
code 0, not a non-zero code. -/
theorem C5_vcs_failure_exits_zero :
    runPipeline ⟨none, none, none, none⟩
        ⟨none, some "production", some "abc123", true, true, true, true⟩ (some "deploy") =
      ([Event.logErr "VcsUnavailable"], 0) := rfl

/-- Claim C8: within one run that reaches the Deployment Applier, the image
reference in the submitted descriptor is exactly the string the Image
Builder returned in that run: the builder returns fullImageNameOf, every
create event in the trace carries the descriptor built from that very
string, and every container of that descriptor uses it as its image. -/
theorem C8_image_reference_invariant (e : PEnv) (w : World) (b c : String)
    (h1 : w.mainBranchQ = some "production")
    (h2 : w.buildBranchQ = some b) (h3 : w.buildLogQ = some c)
    (ht : w.testOk = true) (hb : w.buildOk = true) (hp : w.pushOk = true) :
    (buildDockerImage e w).2 = Outcome.ok (fullImageNameOf e b c) ∧
    (∀ ns d, Event.k8sCreate ns d ∈ (runPipeline e w (some "deploy")).1 →
      d = mkDeployment e (fullImageNameOf e b c)) ∧
    (∀ ctr, ctr ∈ (mkDeployment e (fullImageNameOf e b c)).containers →
      ctr.image = fullImageNameOf e b c) := by
  refine ⟨?_, fun ns d hd => ?_, fun ctr hc => ?_⟩
  · simp [buildDockerImage, h2, h3, hb, hp]
  · cases hk : w.k8sCreateOk <;>
      simp [runPipeline, mainFn, runUnitTests, buildDockerImage, deployToK8s, andThen,
        h1, h2, h3, ht, hb, hp, hk] at hd <;> exact hd.2
  · simp [mkDeployment] at hc
    subst hc
    rfl

/-- Witness for C8: on a concrete successful production run, the builder
returns the full image name for branch production and commit abc123. -/
theorem C8_image_reference_invariant_witness :
    (buildDockerImage ⟨none, none, none, none⟩
        ⟨some "production", some "production", some "abc123", true, true, true, true⟩).2 =
      Outcome.ok (fullImageNameOf ⟨none, none, none, none⟩ "production" "abc123") :=
  (C8_image_reference_invariant ⟨none, none, none, none⟩
      ⟨some "production", some "production", some "abc123", true, true, true, true⟩
      "production" "abc123" rfl rfl rfl rfl rfl rfl).1

/-- Claim C9: the Image Builder re-queries the branch itself, and the tag
is derived solely from that second query: on a run where the controller
query returned production (the deploy gate passed, the test stage ran) but
the builder query returned a different branch, the pushed image carries
the dev- tag. -/
theorem C9_builder_requeries_branch (e : PEnv) (w : World) (b2 c : String)
    (h1 : w.mainBranchQ = some "production")
    (h2 : w.buildBranchQ = some b2) (hne : b2 ≠ "production")
    (h3 : w.buildLogQ = some c)
    (ht : w.testOk = true) (hb : w.buildOk = true) (hp : w.pushOk = true) :
    Event.runTestCmd ∈ (runPipeline e w (some "deploy")).1 ∧
    Event.dockerPush (DOCKER_REGISTRY e ++ "/" ++ IMAGE_NAME ++ ":" ++ ("dev-" ++ c)) (authOf e)
      ∈ (runPipeline e w (some "deploy")).1 := by
  cases hk : w.k8sCreateOk <;>
    simp [runPipeline, mainFn, runUnitTests, buildDockerImage, deployToK8s, andThen,
      h1, h2, h3, ht, hb, hp, hk, fullImageNameOf, hne]

/-- Witness for C9: controller sees production, builder sees main, and the
dev-tagged push happens in the same run. -/
theorem C9_builder_requeries_branch_witness :
    Event.dockerPush ("your-registry.com" ++ "/" ++ "legal-app" ++ ":" ++ ("dev-" ++ "abc123"))
        (authOf ⟨none, none, none, none⟩)
      ∈ (runPipeline ⟨none, none, none, none⟩
          ⟨some "production", some "main", some "abc123", true, true, true, true⟩
          (some "deploy")).1 :=
  (C9_builder_requeries_branch ⟨none, none, none, none⟩
      ⟨some "production", some "main", some "abc123", true, true, true, true⟩
      "main" "abc123" rfl rfl (by decide) rfl rfl rfl rfl).2

/-- Claim C10: the registry credentials are never validated: with both
credential variables unset, a deploy run still reaches the push, which is
attempted with absent username and password in the auth configuration, and
missing credentials cause no failure of their own — when push and create
succeed the run exits 0. -/
theorem C10_credentials_not_validated (e : PEnv) (w : World) (b c : String)
    (hu : e.dockerUsername = none) (hpw : e.dockerPassword = none)
    (h1 : w.mainBranchQ = some "production")
    (h2 : w.buildBranchQ = some b) (h3 : w.buildLogQ = some c)
    (ht : w.testOk = true) (hb : w.buildOk = true) :
    Event.dockerPush (fullImageNameOf e b c)
        { username := none, password := none, serveraddress := DOCKER_REGISTRY e }
      ∈ (runPipeline e w (some "deploy")).1 ∧
    (w.pushOk = true → w.k8sCreateOk = true → (runPipeline e w (some "deploy")).2 = 0) := by
  cases hp : w.pushOk <;> cases hk : w.k8sCreateOk <;>
    simp [runPipeline, mainFn, runUnitTests, buildDockerImage, deployToK8s, andThen,
      h1, h2, h3, ht, hb, hp, hk, authOf, hu, hpw]

/-- Witness for C10: with unset credentials, the push with absent
username and password occurs on a concrete production deploy run. -/
theorem C10_credentials_not_validated_witness :
    Event.dockerPush (fullImageNameOf ⟨none, none, none, none⟩ "production" "abc123")
        { username := none, password := none,
          serveraddress := DOCKER_REGISTRY ⟨none, none, none, none⟩ }
      ∈ (runPipeline ⟨none, none, none, none⟩
          ⟨some "production", some "production", some "abc123", true, true, true, true⟩
          (some "deploy")).1 :=
  (C10_credentials_not_validated ⟨none, none, none, none⟩
      ⟨some "production", some "production", some "abc123", true, true, true, true⟩
      "production" "abc123" rfl rfl rfl rfl rfl rfl rfl).1

end CicdPipeline
